import Mathlib

/-!
Verification of the video-to-GIF conversion pipeline implemented in
`vid_to_gif.py`.  The definitions below are a shallow embedding of that
script: pure helpers (`timestamp_to_seconds`, the width resolution in
`main`, the filter-chain construction in `video_to_gif`) become Lean
functions, and the side-effecting parts (the two ffmpeg passes, the file
system) are modelled by an explicit environment record plus an event
trace.  Machine floats are modelled by `ℚ`; the script only performs
exact decimal arithmetic on the values the claims mention.
-/

/-- Python `ValueError`: the single exception type raised by
`timestamp_to_seconds` (directly on a bad segment count, or propagated
from the builtin `float`). -/
inductive PyErr
  | valueError
deriving DecidableEq

/-- Equality of `Except` results is decidable componentwise (used to
state and check concrete runs). -/
instance {α β : Type} [DecidableEq α] [DecidableEq β] : DecidableEq (Except α β) :=
  fun x y =>
    match x, y with
    | .ok a, .ok b => if h : a = b then isTrue (by rw [h]) else isFalse (by simp [h])
    | .error a, .error b => if h : a = b then isTrue (by rw [h]) else isFalse (by simp [h])
    | .ok _, .error _ => isFalse (by simp)
    | .error _, .ok _ => isFalse (by simp)

/-- Numeric value of a list of decimal digit characters, most significant
first (the usual base-10 fold). -/
def digitsToNat (l : List Char) : ℕ :=
  l.foldl (fun a c => 10 * a + (c.toNat - 48)) 0

/-- Unsigned mantissa accepted by Python's builtin `float`: a nonempty
digit run, optionally followed by `.` and a (possibly empty) digit run,
or a `.` followed by a nonempty digit run.  Models the plain decimal
core of the builtin (exponent notation, `inf`/`nan`, underscores and
surrounding whitespace are outside the model; no claim depends on
them). -/
def parseUM (l : List Char) : Option ℚ :=
  match l.dropWhile Char.isDigit with
  | [] =>
    if l.takeWhile Char.isDigit = [] then none
    else some ((digitsToNat (l.takeWhile Char.isDigit) : ℚ))
  | c :: frac =>
    if c = '.' then
      if frac.all Char.isDigit then
        if l.takeWhile Char.isDigit = [] ∧ frac = [] then none
        else some ((digitsToNat (l.takeWhile Char.isDigit) : ℚ) +
          (digitsToNat frac : ℚ) / (10 : ℚ) ^ frac.length)
      else none
    else none

/-- Python builtin `float` applied to a string (as a char list): an
optional sign followed by an unsigned decimal mantissa.  `none` models a
raised `ValueError`. -/
def pyFloat (l : List Char) : Option ℚ :=
  match l with
  | [] => none
  | c :: rest =>
    if c = '-' then (parseUM rest).map (fun q => -q)
    else if c = '+' then parseUM rest
    else parseUM (c :: rest)

/-- Python `str.split(':')` on a char list: the list of (possibly empty)
segments between colons; never empty. -/
def splitOnColon : List Char → List (List Char)
  | [] => [[]]
  | c :: cs =>
    if c = ':' then [] :: splitOnColon cs
    else
      match splitOnColon cs with
      | [] => [[c]]
      | p :: ps => (c :: p) :: ps

/-- Core of `timestamp_to_seconds` (`vid_to_gif.py` lines 44-61) on an
actual string: first try `float(timestamp)`; otherwise split on `:` and
interpret 3 segments as H:M:S, 2 as M:S, 1 as plain seconds, each
segment parsed by `float`; any other segment count raises
`ValueError`. -/
def tssParts : List (List Char) → Except PyErr ℚ
  | [h, m, sec] =>
    match pyFloat h, pyFloat m, pyFloat sec with
    | some a, some b, some c => .ok (a * 3600 + b * 60 + c)
    | _, _, _ => .error .valueError
  | [m, sec] =>
    match pyFloat m, pyFloat sec with
    | some b, some c => .ok (b * 60 + c)
    | _, _ => .error .valueError
  | [p] =>
    match pyFloat p with
    | some c => .ok c
    | none => .error .valueError
  | _ => .error .valueError

/-- `timestamp_to_seconds` on a string argument (the `timestamp is None`
guard is handled by the wrapper below). -/
def tssCore (s : String) : Except PyErr ℚ :=
  match pyFloat s.data with
  | some q => .ok q
  | none => tssParts (splitOnColon s.data)

/-- `timestamp_to_seconds` (`vid_to_gif.py` lines 39-61): `None` maps to
`None`, otherwise the string is normalized to elapsed seconds. -/
def timestamp_to_seconds : Option String → Except PyErr (Option ℚ)
  | none => .ok none
  | some s => (tssCore s).map some

/-- Python builtin `int` applied to a string: an optional sign followed
by a nonempty digit run (underscores and whitespace are outside the
model). -/
def pyInt (l : List Char) : Option Int :=
  match l with
  | [] => none
  | c :: rest =>
    if c = '-' then
      if rest ≠ [] ∧ rest.all Char.isDigit then some (-(digitsToNat rest : Int)) else none
    else if c = '+' then
      if rest ≠ [] ∧ rest.all Char.isDigit then some ((digitsToNat rest : Int)) else none
    else
      if (c :: rest).all Char.isDigit then some ((digitsToNat (c :: rest) : Int)) else none

/-- Python `str.lower()` (ASCII case folding suffices for the preset
names involved). -/
def pyLower (l : List Char) : List Char :=
  l.map Char.toLower

/-- The preset table `RECOMMENDED_WIDTHS` (`vid_to_gif.py` lines
168-175). -/
def RECOMMENDED_WIDTHS : List (List Char × Int) :=
  [("tiny".data, 240), ("small".data, 320), ("medium".data, 480),
   ("large".data, 640), ("xlarge".data, 800), ("hd".data, 1280)]

/-- Failure mode of the width-processing block: `sys.exit(1)` after the
"Invalid width" message. -/
inductive WidthError
  | invalidWidth
deriving DecidableEq

/-- Width processing in `main` (`vid_to_gif.py` lines 239-255).  `none`
or an empty string is falsy (`if args.width:`), so the default `medium`
preset applies; otherwise a case-insensitive preset lookup is tried
first, then `int(args.width)`; if both fail the program exits with an
invalid-width error. -/
def resolveWidth : Option String → Except WidthError Int
  | none => .ok ((List.lookup ("medium".data) RECOMMENDED_WIDTHS).getD 0)
  | some t =>
    if t.data = [] then .ok ((List.lookup ("medium".data) RECOMMENDED_WIDTHS).getD 0)
    else
      match List.lookup (pyLower t.data) RECOMMENDED_WIDTHS with
      | some w => .ok w
      | none =>
        match pyInt t.data with
        | some n => .ok n
        | none => .error .invalidWidth

/-- Scale filter (`vid_to_gif.py` lines 112-115): `if width:` is Python
truthiness, so `None` and `0` both fall to the no-explicit-width
clause. -/
def scaleClause (width : Option Int) : String :=
  match width with
  | some w =>
    if w = 0 then "scale=-1:-1:flags=lanczos"
    else "scale=" ++ toString w ++ ":-1:flags=lanczos"
  | none => "scale=-1:-1:flags=lanczos"

/-- `','.join` on a list of strings. -/
def joinComma : List String → String
  | [] => ""
  | [x] => x
  | x :: y :: xs => x ++ "," ++ joinComma (y :: xs)

/-- The shared `filters` list (`vid_to_gif.py` lines 109-118): the scale
clause, then the fps clause, in that order. -/
def filtersFor (width : Option Int) (fps : Int) : List String :=
  [scaleClause width] ++ ["fps=" ++ toString fps]

/-- `palette_filters` (`vid_to_gif.py` line 121). -/
def paletteFilters (width : Option Int) (fps : Int) : String :=
  joinComma (filtersFor width fps) ++ ",palettegen"

/-- `gif_filters` (`vid_to_gif.py` line 137). -/
def gifFilters (width : Option Int) (fps : Int) : String :=
  joinComma (filtersFor width fps) ++ "[x];[x][1:v]paletteuse"

/-- One token of an external command line.  Literal strings are kept as
strings; numeric arguments produced by Python's `str(...)` on a float
keep their exact numeric value (`str` is injective on
distinct values, so comparing values is faithful). -/
inductive Tok
  | s (v : String)
  | q (v : ℚ)
deriving DecidableEq

/-- The base ffmpeg command with trim arguments (`vid_to_gif.py` lines
87-106).  `.ok none` models the early `return False` on a non-positive
duration ("End time must be after start time"); `.error` models a
`ValueError` propagating out of `timestamp_to_seconds`. -/
def buildCmd (input : String) (start endT : Option String) :
    Except PyErr (Option (List Tok)) :=
  match start, endT with
  | none, none => .ok (some [.s "ffmpeg", .s "-i", .s input])
  | some st, none =>
    match tssCore st with
    | .error e => .error e
    | .ok qs => .ok (some ([.s "ffmpeg", .s "-i", .s input] ++ [.s "-ss", .q qs]))
  | none, some en =>
    match tssCore en with
    | .error e => .error e
    | .ok qe => .ok (some ([.s "ffmpeg", .s "-i", .s input] ++ [.s "-t", .q qe]))
  | some st, some en =>
    match tssCore st with
    | .error e => .error e
    | .ok qs =>
      match tssCore en with
      | .error e => .error e
      | .ok qe =>
        if qe - qs ≤ 0 then .ok none
        else .ok (some ([.s "ffmpeg", .s "-i", .s input] ++
          [.s "-ss", .q qs] ++ [.s "-t", .q (qe - qs)]))

/-- `pathlib.Path(p).stem`: the final path component with its last
suffix removed (a suffix needs a dot that is neither leading nor
trailing in the component). -/
def pathStem (p : String) : String :=
  let name := (p.data.reverse.takeWhile (fun c => c ≠ '/')).reverse
  let k := (name.reverse.takeWhile (fun c => c ≠ '.')).length
  if k = name.length then String.mk name
  else
    let i := name.length - k - 1
    if 0 < i ∧ i < name.length - 1 then String.mk (name.take i) else String.mk name

/-- Output path defaulting (`vid_to_gif.py` lines 83-85). -/
def outputFileFor (input : String) (output : Option String) : String :=
  match output with
  | none => pathStem input ++ ".gif"
  | some o => o

/-- `palette_cmd` (`vid_to_gif.py` lines 124-127). -/
def paletteCmdOf (cmd : List Tok) (width : Option Int) (fps : Int) : List Tok :=
  cmd ++ [.s "-vf", .s (paletteFilters width fps), .s "-y", .s "palette.png"]

/-- `gif_cmd` (`vid_to_gif.py` lines 139-143). -/
def gifCmdOf (cmd : List Tok) (width : Option Int) (fps : Int) (outFile : String) : List Tok :=
  cmd ++ [.s "-i", .s "palette.png", .s "-lavfi", .s (gifFilters width fps),
          .s "-y", .s outFile]

/-- Observable steps of a run, in program order: the three kinds of
external process invocations (`ffmpeg -version` in `check_ffmpeg`,
`ffprobe` in `get_video_duration`, the two ffmpeg encoder passes) and
the three validation checks the spec names (width resolution, timestamp
resolution, input-file existence). -/
inductive Ev
  | procCheckFFmpeg
  | procProbe
  | validateWidth
  | validateTimestamps
  | checkInputExists
  | procPalette
  | procGif
deriving DecidableEq

/-- An event is an external process invocation. -/
def isProcessEvent : Ev → Bool
  | .procCheckFFmpeg => true
  | .procProbe => true
  | .procPalette => true
  | .procGif => true
  | _ => false

/-- An event is one of the validation checks. -/
def isValidationEvent : Ev → Bool
  | .validateWidth => true
  | .validateTimestamps => true
  | .checkInputExists => true
  | _ => false

/-- An event is one of the two encoder passes. -/
def isEncoderPassEvent : Ev → Bool
  | .procPalette => true
  | .procGif => true
  | _ => false

/-- `eventsPrecede p q t`: in the trace `t`, no `p`-event occurs
strictly after any `q`-event; that is, all `p`-events precede all
`q`-events. -/
def eventsPrecede (p q : Ev → Bool) : List Ev → Bool
  | [] => true
  | e :: rest =>
    ((!q e) || rest.all (fun x => !p x)) && eventsPrecede p q rest

/-- The parts of the outside world the script interacts with: whether
ffmpeg is on the PATH, whether the input file exists, whether
`palette.png` exists before the run, the exit status of each encoder
pass, and whether a failed palette pass nevertheless leaves a
`palette.png` on disk (ffmpeg can fail after creating its output, and a
stale file from an earlier run may also be present). -/
structure SysEnv where
  ffmpegAvailable : Bool
  inputExists : Bool
  palette0 : Bool
  paletteOk : Bool
  paletteAfterFail : Bool
  gifOk : Bool
deriving DecidableEq

/-- How a call to `video_to_gif` ends: `return True`, `return False`, or
an uncaught `ValueError` from `timestamp_to_seconds`. -/
inductive GifOutcome
  | success
  | failure
  | raised (e : PyErr)
deriving DecidableEq

/-- Result of one `video_to_gif` call: its outcome, whether
`palette.png` exists when it returns, the encoder commands it actually
ran (`none` when the corresponding pass was never reached), and its
event trace. -/
structure GifRun where
  outcome : GifOutcome
  paletteAfter : Bool
  paletteCmdRun : Option (List Tok)
  gifCmdRun : Option (List Tok)
  events : List Ev
deriving DecidableEq

/-- `video_to_gif` (`vid_to_gif.py` lines 64-163).  The input-existence
guard runs first; the base command (with trim arguments) is built next;
the palette pass runs, and on its failure the function returns `False`
immediately — the cleanup code at lines 150-151 and 161-162 runs only on
the two exits of the final pass, so after a failed palette pass
`palette.png` is left in whatever state that pass produced. -/
def video_to_gif (env : SysEnv) (input : String) (output : Option String)
    (width : Option Int) (start endT : Option String) (fps : Int) : GifRun :=
  if env.inputExists = false then
    ⟨.failure, env.palette0, none, none, [.checkInputExists]⟩
  else
    match buildCmd input start endT with
    | .error e => ⟨.raised e, env.palette0, none, none, [.checkInputExists]⟩
    | .ok none => ⟨.failure, env.palette0, none, none, [.checkInputExists]⟩
    | .ok (some cmd) =>
      if env.paletteOk = false then
        ⟨.failure, env.paletteAfterFail, some (paletteCmdOf cmd width fps), none,
         [.checkInputExists, .procPalette]⟩
      else if env.gifOk then
        ⟨.success, false, some (paletteCmdOf cmd width fps),
         some (gifCmdOf cmd width fps (outputFileFor input output)),
         [.checkInputExists, .procPalette, .procGif]⟩
      else
        ⟨.failure, false, some (paletteCmdOf cmd width fps),
         some (gifCmdOf cmd width fps (outputFileFor input output)),
         [.checkInputExists, .procPalette, .procGif]⟩

/-- One timestamp argument check in `main` (`vid_to_gif.py` lines
259-262): `if args.start:` is Python truthiness, so `None` and the empty
string are skipped; otherwise the value must normalize. -/
def tsArgCheck : Option String → Except PyErr Unit
  | none => .ok ()
  | some s => if s.data = [] then .ok () else (tssCore s).map (fun _ => ())

/-- The timestamp-validation block of `main` (`vid_to_gif.py` lines
257-266): start first, then end; the first `ValueError` aborts. -/
def validateTs (start endT : Option String) : Except PyErr Unit :=
  match tsArgCheck start with
  | .error e => .error e
  | .ok _ => tsArgCheck endT

/-- The command-line arguments as delivered by argparse (`vid_to_gif.py`
lines 194-218). -/
structure CliArgs where
  input : String
  output : Option String
  width : Option String
  start : Option String
  endT : Option String
  fps : Int
  listInfo : Bool
deriving DecidableEq

/-- `main` (`vid_to_gif.py` lines 166-278) as a trace/exit-code
function: the ffmpeg availability check runs first (line 223), then the
`--list-info` probe-only mode, then width processing, then timestamp
validation, then the conversion; the exit code is 0 exactly on a
successful conversion or a completed `--list-info` probe. -/
def mainRun (env : SysEnv) (a : CliArgs) : List Ev × Nat :=
  if env.ffmpegAvailable = false then ([.procCheckFFmpeg], 1)
  else if a.listInfo then ([.procCheckFFmpeg, .procProbe], 0)
  else
    match resolveWidth a.width with
    | .error _ => ([.procCheckFFmpeg, .validateWidth], 1)
    | .ok w =>
      match validateTs a.start a.endT with
      | .error _ => ([.procCheckFFmpeg, .validateWidth, .validateTimestamps], 1)
      | .ok _ =>
        ([.procCheckFFmpeg, .validateWidth, .validateTimestamps] ++
           (video_to_gif env a.input a.output (some w) a.start a.endT a.fps).events,
         match (video_to_gif env a.input a.output (some w) a.start a.endT a.fps).outcome with
         | .success => 0
         | _ => 1)

/-! ### Helper lemmas about the Python-builtin models -/

theorem parseUM_chars {l : List Char} {q : ℚ} (h : parseUM l = some q) :
    ∀ c ∈ l, c.isDigit = true ∨ c = '.' := by
  intro c hc
  conv at hc => rw [← List.takeWhile_append_dropWhile (p := Char.isDigit) (l := l)]
  unfold parseUM at h
  split at h
  next hdrop =>
    rw [hdrop, List.append_nil] at hc
    exact Or.inl (List.mem_takeWhile_imp hc)
  next c0 frac hdrop =>
    split at h
    next hc0 =>
      subst hc0
      split at h
      next hall =>
        rw [hdrop] at hc
        rcases List.mem_append.1 hc with h1 | h2
        · exact Or.inl (List.mem_takeWhile_imp h1)
        · rcases List.mem_cons.1 h2 with rfl | hcf
          · exact Or.inr rfl
          · exact Or.inl (List.all_eq_true.mp hall c hcf)
      next => exact absurd h (by simp)
    next => exact absurd h (by simp)

theorem parseUM_nonneg {l : List Char} {q : ℚ} (h : parseUM l = some q) : 0 ≤ q := by
  unfold parseUM at h
  split at h
  next =>
    split at h
    · exact absurd h (by simp)
    · injection h with h1
      rw [← h1]
      positivity
  next c0 frac hdrop =>
    split at h
    next =>
      split at h
      next =>
        split at h
        · exact absurd h (by simp)
        · injection h with h1
          rw [← h1]
          positivity
      next => exact absurd h (by simp)
    next => exact absurd h (by simp)

theorem pyFloat_chars {l : List Char} {q : ℚ} (h : pyFloat l = some q) :
    ∀ c ∈ l, c.isDigit = true ∨ c = '.' ∨ c = '-' ∨ c = '+' := by
  intro c hc
  unfold pyFloat at h
  split at h
  next => simp at hc
  next c0 rest =>
    split at h
    next hc0 =>
      subst hc0
      rcases List.mem_cons.1 hc with rfl | hcr
      · exact Or.inr (Or.inr (Or.inl rfl))
      · rcases Option.map_eq_some'.1 h with ⟨q0, hq0, _⟩
        rcases parseUM_chars hq0 c hcr with h1 | h1
        · exact Or.inl h1
        · exact Or.inr (Or.inl h1)
    next =>
      split at h
      next hc0 =>
        subst hc0
        rcases List.mem_cons.1 hc with rfl | hcr
        · exact Or.inr (Or.inr (Or.inr rfl))
        · rcases parseUM_chars h c hcr with h1 | h1
          · exact Or.inl h1
          · exact Or.inr (Or.inl h1)
      next =>
        rcases parseUM_chars h c hc with h1 | h1
        · exact Or.inl h1
        · exact Or.inr (Or.inl h1)

theorem pyFloat_no_colon {l : List Char} {q : ℚ} (h : pyFloat l = some q) : ':' ∉ l := by
  intro hc
  rcases pyFloat_chars h ':' hc with h1 | h1 | h1 | h1 <;> simp_all

theorem pyFloat_none_of_colon {l : List Char} (h : ':' ∈ l) : pyFloat l = none := by
  cases hq : pyFloat l with
  | none => rfl
  | some q => exact absurd h (pyFloat_no_colon hq)

theorem pyFloat_nonneg {l : List Char} {q : ℚ} (h : pyFloat l = some q)
    (hm : '-' ∉ l) : 0 ≤ q := by
  unfold pyFloat at h
  split at h
  next => exact absurd h (by simp)
  next c0 rest =>
    split at h
    next hc0 => exact absurd (hc0 ▸ List.mem_cons_self c0 rest) hm
    next =>
      split at h
      next => exact parseUM_nonneg h
      next => exact parseUM_nonneg h

theorem splitOnColon_ne_nil (l : List Char) : splitOnColon l ≠ [] := by
  induction l with
  | nil => simp [splitOnColon]
  | cons c cs ih =>
    unfold splitOnColon
    split
    · simp
    · split
      · simp
      · simp

theorem splitOnColon_no_colon {l : List Char} (h : ∀ c ∈ l, c ≠ ':') :
    splitOnColon l = [l] := by
  induction l with
  | nil => rfl
  | cons c cs ih =>
    have hc : c ≠ ':' := h c (List.mem_cons_self c cs)
    have ihh := ih (fun x hx => h x (List.mem_cons_of_mem _ hx))
    unfold splitOnColon
    rw [if_neg hc, ihh]

theorem splitOnColon_append {a r : List Char} (h : ∀ c ∈ a, c ≠ ':') :
    splitOnColon (a ++ ':' :: r) = a :: splitOnColon r := by
  induction a with
  | nil => simp [splitOnColon]
  | cons c cs ih =>
    have hc : c ≠ ':' := h c (List.mem_cons_self c cs)
    have ihh := ih (fun x hx => h x (List.mem_cons_of_mem _ hx))
    show splitOnColon (c :: (cs ++ ':' :: r)) = (c :: cs) :: splitOnColon r
    conv_lhs => rw [splitOnColon]
    rw [if_neg hc, ihh]

theorem splitOnColon_singleton {l p : List Char} (h : splitOnColon l = [p]) : p = l := by
  induction l generalizing p with
  | nil =>
    simp only [splitOnColon] at h
    injection h with h1
    exact h1.symm
  | cons c cs ih =>
    unfold splitOnColon at h
    split at h
    next hc =>
      have hnil : splitOnColon cs = [] := by
        cases hh : splitOnColon cs with
        | nil => rfl
        | cons q qs => rw [hh] at h; simp at h
      exact absurd hnil (splitOnColon_ne_nil cs)
    next hc =>
      split at h
      next hnil => exact absurd hnil (splitOnColon_ne_nil cs)
      next q qs hqs =>
        injection h with h1 h2
        subst h2
        have hq := ih (p := q) hqs
        rw [← h1, hq]

theorem splitOnColon_sub {l : List Char} :
    ∀ p ∈ splitOnColon l, ∀ c ∈ p, c ∈ l := by
  induction l with
  | nil =>
    intro p hp c hc
    simp only [splitOnColon] at hp
    rcases List.mem_cons.1 hp with rfl | hp2
    · simp at hc
    · simp at hp2
  | cons a cs ih =>
    intro p hp c hc
    unfold splitOnColon at hp
    split at hp
    next ha =>
      rcases List.mem_cons.1 hp with rfl | hp2
      · simp at hc
      · exact List.mem_cons_of_mem _ (ih p hp2 c hc)
    next ha =>
      split at hp
      next hnil => exact absurd hnil (splitOnColon_ne_nil cs)
      next q qs hqs =>
        rcases List.mem_cons.1 hp with rfl | hp2
        · rcases List.mem_cons.1 hc with rfl | hcq
          · exact List.mem_cons_self _ _
          · exact List.mem_cons_of_mem _
              (ih q (by rw [hqs]; exact List.mem_cons_self _ _) c hcq)
        · exact List.mem_cons_of_mem _
            (ih p (by rw [hqs]; exact List.mem_cons_of_mem _ hp2) c hc)

theorem colon_mem_of_two_le {l : List Char} (h : 2 ≤ (splitOnColon l).length) :
    ':' ∈ l := by
  by_contra hc
  rw [splitOnColon_no_colon (fun c hm => fun he => hc (he ▸ hm))] at h
  simp at h

theorem tss_float {s : String} {q : ℚ} (h : pyFloat s.data = some q) :
    tssCore s = .ok q := by
  unfold tssCore
  rw [h]

theorem tss_two (m sec : List Char) (b c : ℚ)
    (hm : pyFloat m = some b) (hs : pyFloat sec = some c) :
    tssCore (String.mk (m ++ ':' :: sec)) = .ok (b * 60 + c) := by
  have hdata : (String.mk (m ++ ':' :: sec)).data = m ++ ':' :: sec := rfl
  have hcol : ':' ∈ m ++ ':' :: sec := List.mem_append_right _ (List.mem_cons_self _ _)
  have hm2 : ∀ x ∈ m, x ≠ ':' := fun x hx he => pyFloat_no_colon hm (he ▸ hx)
  have hs2 : ∀ x ∈ sec, x ≠ ':' := fun x hx he => pyFloat_no_colon hs (he ▸ hx)
  unfold tssCore
  rw [hdata, pyFloat_none_of_colon hcol, splitOnColon_append hm2,
    splitOnColon_no_colon hs2]
  simp [tssParts, hm, hs]

theorem tss_three (h m sec : List Char) (a b c : ℚ)
    (hh : pyFloat h = some a) (hm : pyFloat m = some b) (hs : pyFloat sec = some c) :
    tssCore (String.mk (h ++ ':' :: (m ++ ':' :: sec))) =
      .ok (a * 3600 + b * 60 + c) := by
  have hdata : (String.mk (h ++ ':' :: (m ++ ':' :: sec))).data =
      h ++ ':' :: (m ++ ':' :: sec) := rfl
  have hcol : ':' ∈ h ++ ':' :: (m ++ ':' :: sec) :=
    List.mem_append_right _ (List.mem_cons_self _ _)
  have hh2 : ∀ x ∈ h, x ≠ ':' := fun x hx he => pyFloat_no_colon hh (he ▸ hx)
  have hm2 : ∀ x ∈ m, x ≠ ':' := fun x hx he => pyFloat_no_colon hm (he ▸ hx)
  have hs2 : ∀ x ∈ sec, x ≠ ':' := fun x hx he => pyFloat_no_colon hs (he ▸ hx)
  unfold tssCore
  rw [hdata, pyFloat_none_of_colon hcol, splitOnColon_append hh2,
    splitOnColon_append hm2, splitOnColon_no_colon hs2]
  simp [tssParts, hh, hm, hs]

theorem tss_two_core (m sec : List Char) (b c q : ℚ) (hm : pyFloat m = some b)
    (hs : pyFloat sec = some c) (hq : b * 60 + c = q) :
    tssCore (String.mk (m ++ ':' :: sec)) = .ok q := by
  rw [tss_two m sec b c hm hs, hq]

theorem tss_two_val (m sec : List Char) (b c q : ℚ) (hm : pyFloat m = some b)
    (hs : pyFloat sec = some c) (hq : b * 60 + c = q) :
    timestamp_to_seconds (some (String.mk (m ++ ':' :: sec))) = .ok (some q) := by
  show (tssCore _).map some = _
  rw [tss_two_core m sec b c q hm hs hq]
  rfl

theorem tssCore_error_of_len4 {s : String} (h4 : 4 ≤ (splitOnColon s.data).length) :
    tssCore s = .error .valueError := by
  have hcol : ':' ∈ s.data := colon_mem_of_two_le (le_trans (by norm_num) h4)
  unfold tssCore
  rw [pyFloat_none_of_colon hcol]
  rcases hsp : splitOnColon s.data with _ | ⟨a, _ | ⟨b, _ | ⟨c, _ | ⟨d, rest⟩⟩⟩⟩ <;>
    rw [hsp] at h4
  · simp at h4
  · simp at h4
  · simp at h4
  · simp at h4
  · rfl

theorem tssParts_two_error {a b : List Char}
    (h : pyFloat a = none ∨ pyFloat b = none) :
    tssParts [a, b] = .error .valueError := by
  rcases h with h | h
  · cases hB : pyFloat b <;> simp [tssParts, h, hB]
  · cases hA : pyFloat a <;> simp [tssParts, h, hA]

theorem tssParts_three_error {a b c : List Char}
    (h : pyFloat a = none ∨ pyFloat b = none ∨ pyFloat c = none) :
    tssParts [a, b, c] = .error .valueError := by
  rcases h with h | h | h
  · cases hB : pyFloat b <;> cases hC : pyFloat c <;> simp [tssParts, h, hB, hC]
  · cases hA : pyFloat a <;> cases hC : pyFloat c <;> simp [tssParts, h, hA, hC]
  · cases hA : pyFloat a <;> cases hB : pyFloat b <;> simp [tssParts, h, hA, hB]

theorem tssCore_error_of_bad_part {s : String} {p : List Char}
    (hp : p ∈ splitOnColon s.data) (hbad : pyFloat p = none) :
    tssCore s = .error .valueError := by
  rcases hsp : splitOnColon s.data with _ | ⟨a, _ | ⟨b, _ | ⟨c, _ | ⟨d, rest⟩⟩⟩⟩
  · exact absurd hsp (splitOnColon_ne_nil _)
  · have hpa : p = a := by rw [hsp] at hp; simpa using hp
    have hal : a = s.data := splitOnColon_singleton hsp
    have hpf : pyFloat s.data = none := by rw [← hal, ← hpa]; exact hbad
    unfold tssCore
    rw [hpf, hsp, ← hpa]
    simp [tssParts, hbad]
  · have hcol : ':' ∈ s.data := colon_mem_of_two_le (by rw [hsp]; norm_num)
    unfold tssCore
    rw [pyFloat_none_of_colon hcol, hsp]
    rw [hsp] at hp
    apply tssParts_two_error
    rcases List.mem_cons.1 hp with rfl | hp2
    · exact Or.inl hbad
    · rcases List.mem_cons.1 hp2 with rfl | hp3
      · exact Or.inr hbad
      · simp at hp3
  · have hcol : ':' ∈ s.data := colon_mem_of_two_le (by rw [hsp]; norm_num)
    unfold tssCore
    rw [pyFloat_none_of_colon hcol, hsp]
    rw [hsp] at hp
    apply tssParts_three_error
    rcases List.mem_cons.1 hp with rfl | hp2
    · exact Or.inl hbad
    · rcases List.mem_cons.1 hp2 with rfl | hp3
      · exact Or.inr (Or.inl hbad)
      · rcases List.mem_cons.1 hp3 with rfl | hp4
        · exact Or.inr (Or.inr hbad)
        · simp at hp4
  · exact tssCore_error_of_len4 (by rw [hsp]; simp)

theorem tssCore_nonneg {s : String} {q : ℚ} (hm : '-' ∉ s.data)
    (h : tssCore s = .ok q) : 0 ≤ q := by
  have hsub : ∀ p ∈ splitOnColon s.data, '-' ∉ p :=
    fun p hp hmem => hm (splitOnColon_sub p hp '-' hmem)
  unfold tssCore at h
  split at h
  next q0 hq0 =>
    injection h with h1
    rw [← h1]
    exact pyFloat_nonneg hq0 hm
  next hq0 =>
    rcases hsp : splitOnColon s.data with _ | ⟨a, _ | ⟨b, _ | ⟨c, _ | ⟨d, rest⟩⟩⟩⟩ <;>
      rw [hsp] at h
    · simp [tssParts] at h
    · have hna : '-' ∉ a := hsub a (by rw [hsp]; exact List.mem_cons_self _ _)
      rw [show tssParts [a] = (match pyFloat a with
        | some c => (Except.ok c : Except PyErr ℚ)
        | none => .error .valueError) from rfl] at h
      split at h
      next qa hA =>
        injection h with h1
        rw [← h1]
        exact pyFloat_nonneg hA hna
      next => exact absurd h (by simp)
    · have hna : '-' ∉ a := hsub a (by rw [hsp]; simp)
      have hnb : '-' ∉ b := hsub b (by rw [hsp]; simp)
      rw [show tssParts [a, b] = (match pyFloat a, pyFloat b with
        | some bv, some cv => (Except.ok (bv * 60 + cv) : Except PyErr ℚ)
        | _, _ => .error .valueError) from rfl] at h
      split at h
      next qa qb hA hB =>
        injection h with h1
        rw [← h1]
        have h2 := pyFloat_nonneg hA hna
        have h3 := pyFloat_nonneg hB hnb
        positivity
      next => exact absurd h (by simp)
    · have hna : '-' ∉ a := hsub a (by rw [hsp]; simp)
      have hnb : '-' ∉ b := hsub b (by rw [hsp]; simp)
      have hnc : '-' ∉ c := hsub c (by rw [hsp]; simp)
      rw [show tssParts [a, b, c] = (match pyFloat a, pyFloat b, pyFloat c with
        | some av, some bv, some cv =>
          (Except.ok (av * 3600 + bv * 60 + cv) : Except PyErr ℚ)
        | _, _, _ => .error .valueError) from rfl] at h
      split at h
      next qa qb qc hA hB hC =>
        injection h with h1
        rw [← h1]
        have h2 := pyFloat_nonneg hA hna
        have h3 := pyFloat_nonneg hB hnb
        have h4 := pyFloat_nonneg hC hnc
        positivity
      next => exact absurd h (by simp)
    · simp [tssParts] at h

theorem video_to_gif_events_cases (env : SysEnv) (input : String)
    (output : Option String) (width : Option Int) (start endT : Option String)
    (fps : Int) :
    (video_to_gif env input output width start endT fps).events = [.checkInputExists] ∨
    (video_to_gif env input output width start endT fps).events
      = [.checkInputExists, .procPalette] ∨
    (video_to_gif env input output width start endT fps).events
      = [.checkInputExists, .procPalette, .procGif] := by
  unfold video_to_gif
  split
  · exact Or.inl rfl
  · split
    · exact Or.inl rfl
    · exact Or.inl rfl
    · split
      · exact Or.inr (Or.inl rfl)
      · split
        · exact Or.inr (Or.inr rfl)
        · exact Or.inr (Or.inr rfl)

theorem validateTs_error_of_start {start endT : Option String} {s : String} {e : PyErr}
    (hs : start = some s) (hne : s.data ≠ []) (herr : tssCore s = .error e) :
    validateTs start endT = .error e := by
  have h1 : tsArgCheck (some s) = .error e := by
    show (if s.data = [] then Except.ok ()
      else Except.map (fun _ => ()) (tssCore s)) = .error e
    rw [if_neg hne, herr]
    rfl
  rw [hs]
  unfold validateTs
  rw [h1]

/-! ### Claim theorems -/

/-- Claim C5 (confirmed): every string accepted by the decimal parse is
returned as `float(s)`; a well-formed H:M:S colon triple yields
`H*3600 + M*60 + S`, and an M:S pair yields `M*60 + S`. -/
theorem timestamp_normalizer_values :
    (∀ (s : String) (q : ℚ), pyFloat s.data = some q →
      timestamp_to_seconds (some s) = .ok (some q)) ∧
    (∀ (h m sec : List Char) (a b c : ℚ), pyFloat h = some a → pyFloat m = some b →
      pyFloat sec = some c →
      timestamp_to_seconds (some (String.mk (h ++ ':' :: (m ++ ':' :: sec)))) =
        .ok (some (a * 3600 + b * 60 + c))) ∧
    (∀ (m sec : List Char) (b c : ℚ), pyFloat m = some b → pyFloat sec = some c →
      timestamp_to_seconds (some (String.mk (m ++ ':' :: sec))) =
        .ok (some (b * 60 + c))) := by
  refine ⟨fun s q h => ?_, fun h m sec a b c hh hm hs => ?_, fun m sec b c hm hs => ?_⟩
  · show (tssCore s).map some = _
    rw [tss_float h]
    rfl
  · show (tssCore _).map some = _
    rw [tss_three h m sec a b c hh hm hs]
    rfl
  · show (tssCore _).map some = _
    rw [tss_two m sec b c hm hs]
    rfl

theorem timestamp_normalizer_values_witness :
    pyFloat "30".data = some 30 ∧
    timestamp_to_seconds (some "30") = .ok (some 30) ∧
    pyFloat "0".data = some 0 ∧
    timestamp_to_seconds (some (String.mk ("0".data ++ ':' :: "30".data))) =
      .ok (some (0 * 60 + 30)) :=
  ⟨by decide, timestamp_normalizer_values.1 "30" 30 (by decide), by decide,
   timestamp_normalizer_values.2.2 "0".data "30".data 0 30 (by decide) (by decide)⟩

/-- Claim C10 (confirmed): colon components are not range-checked; any
decimal components, including minutes or seconds above 59 and negative
components, are folded arithmetically, so `"1:90"` yields 150.0 and
`"1:-30"` yields 30.0. -/
theorem colon_components_not_range_checked :
    (∀ (m sec : List Char) (b c : ℚ), pyFloat m = some b → pyFloat sec = some c →
      timestamp_to_seconds (some (String.mk (m ++ ':' :: sec))) =
        .ok (some (b * 60 + c))) ∧
    timestamp_to_seconds (some "1:90") = .ok (some 150) ∧
    timestamp_to_seconds (some "1:-30") = .ok (some 30) := by
  refine ⟨fun m sec b c hm hs => ?_, ?_, ?_⟩
  · show (tssCore _).map some = _
    rw [tss_two m sec b c hm hs]
    rfl
  · exact tss_two_val "1".data "90".data 1 90 150 (by decide) (by decide) (by norm_num)
  · exact tss_two_val "1".data "-30".data 1 (-30) 30 (by decide) (by decide) (by norm_num)

theorem colon_components_not_range_checked_witness :
    pyFloat "2".data = some 2 ∧ pyFloat "70".data = some 70 ∧
    timestamp_to_seconds (some (String.mk ("2".data ++ ':' :: "70".data))) =
      .ok (some (2 * 60 + 70)) :=
  ⟨by decide, by decide,
   colon_components_not_range_checked.1 "2".data "70".data 2 70 (by decide) (by decide)⟩

/-- Claim C6 counterexample: the normalizer accepts `"-30"` and returns
the negative value -30, so the accepted output is not always
non-negative. -/
theorem timestamp_accepts_negative_cex :
    timestamp_to_seconds (some "-30") = .ok (some (-30)) ∧ ((-30 : ℚ) < 0) := by
  constructor
  · show (tssCore "-30").map some = Except.ok (some (-30))
    rw [tss_float (s := "-30") (q := -30) (by decide)]
    rfl
  · norm_num

/-- Claim C6 (corrected): the normalizer performs no sign rejection; the
returned value is non-negative for every accepted expression that
contains no minus sign, but expressions with a minus sign are accepted
and may return negative values. -/
theorem timestamp_nonneg_without_minus (s : String) (q : ℚ)
    (hm : '-' ∉ s.data) (h : timestamp_to_seconds (some s) = .ok (some q)) :
    0 ≤ q := by
  have h2 : (tssCore s).map some = .ok (some q) := h
  cases ht : tssCore s with
  | error e =>
    rw [ht] at h2
    exact absurd h2 (by simp [Except.map])
  | ok v =>
    rw [ht] at h2
    simp [Except.map] at h2
    subst h2
    exact tssCore_nonneg hm ht

theorem timestamp_nonneg_without_minus_witness :
    '-' ∉ "1:30".data ∧ timestamp_to_seconds (some "1:30") = .ok (some 90) ∧
    (0 : ℚ) ≤ 90 :=
  ⟨by decide,
   tss_two_val "1".data "30".data 1 30 90 (by decide) (by decide) (by norm_num),
   timestamp_nonneg_without_minus "1:30" 90 (by decide)
     (tss_two_val "1".data "30".data 1 30 90 (by decide) (by decide) (by norm_num))⟩

/-- Claim C8 counterexample: with a malformed start expression `"abc"`
the run does fail at timestamp validation (exit code 1), but an external
process invocation (the ffmpeg availability check) has already happened
before the failure is surfaced, so the failure is not surfaced before
any process invocation. -/
theorem invalid_timestamp_after_process_cex :
    tssCore "abc" = .error .valueError ∧
    mainRun ⟨true, true, false, true, false, true⟩
        ⟨"v.mp4", none, none, some "abc", none, 10, false⟩ =
      ([.procCheckFFmpeg, .validateWidth, .validateTimestamps], 1) ∧
    (mainRun ⟨true, true, false, true, false, true⟩
        ⟨"v.mp4", none, none, some "abc", none, 10, false⟩).1.any isProcessEvent
      = true :=
  ⟨by decide, by decide, by decide⟩

/-- Claim C8 (corrected): a time expression with a colon-segment count
other than 1, 2 or 3, or with a segment that does not parse as a decimal
number, fails normalization with `ValueError`; a request whose start
timestamp is malformed never reaches an encoder pass (though the
encoder-availability check process has already run by then). -/
theorem malformed_timestamp_rejection :
    (∀ s : String, 4 ≤ (splitOnColon s.data).length →
      timestamp_to_seconds (some s) = .error .valueError) ∧
    (∀ (s : String) (p : List Char), p ∈ splitOnColon s.data → pyFloat p = none →
      timestamp_to_seconds (some s) = .error .valueError) ∧
    (∀ (env : SysEnv) (a : CliArgs) (s : String), a.start = some s → s.data ≠ [] →
      tssCore s = .error .valueError →
      (mainRun env a).1.any isEncoderPassEvent = false) := by
  refine ⟨fun s h4 => ?_, fun s p hp hbad => ?_, fun env a s hs hne herr => ?_⟩
  · show (tssCore s).map some = _
    rw [tssCore_error_of_len4 h4]
    rfl
  · show (tssCore s).map some = _
    rw [tssCore_error_of_bad_part hp hbad]
    rfl
  · unfold mainRun
    split
    · rfl
    · split
      · rfl
      · split
        · rfl
        next w hw =>
          split
          next => rfl
          next u hv =>
            rw [validateTs_error_of_start hs hne herr] at hv
            exact absurd hv (by simp)

theorem malformed_timestamp_rejection_witness :
    4 ≤ (splitOnColon "1:2:3:4".data).length ∧
    timestamp_to_seconds (some "1:2:3:4") = .error .valueError ∧
    pyFloat "abc".data = none ∧ "abc".data ∈ splitOnColon "abc".data ∧
    timestamp_to_seconds (some "abc") = .error .valueError :=
  ⟨by decide, malformed_timestamp_rejection.1 "1:2:3:4" (by decide), by decide,
   by decide, malformed_timestamp_rejection.2.1 "abc" "abc".data (by decide) (by decide)⟩

/-- Claim C3 (confirmed): the time window is derived exactly as the code
does it — `-ss startSeconds` when start is set; with both set,
`-t (endSeconds - startSeconds)` and a non-positive duration is rejected
before any encoder pass; with only end set, `-t endSeconds`; and
start `"0:30"` with end `"1:15"` yields duration exactly 45 seconds. -/
theorem time_window_derivation :
    (∀ (input st : String) (qs : ℚ), tssCore st = .ok qs →
      buildCmd input (some st) none =
        .ok (some [.s "ffmpeg", .s "-i", .s input, .s "-ss", .q qs])) ∧
    (∀ (input st en : String) (qs qe : ℚ), tssCore st = .ok qs → tssCore en = .ok qe →
      0 < qe - qs →
      buildCmd input (some st) (some en) =
        .ok (some [.s "ffmpeg", .s "-i", .s input, .s "-ss", .q qs,
          .s "-t", .q (qe - qs)])) ∧
    (∀ (input st en : String) (qs qe : ℚ), tssCore st = .ok qs → tssCore en = .ok qe →
      qe - qs ≤ 0 →
      buildCmd input (some st) (some en) = .ok none ∧
      ∀ (env : SysEnv) (output : Option String) (width : Option Int) (fps : Int),
        Ev.procPalette ∉
          (video_to_gif env input output width (some st) (some en) fps).events) ∧
    (∀ (input en : String) (qe : ℚ), tssCore en = .ok qe →
      buildCmd input none (some en) =
        .ok (some [.s "ffmpeg", .s "-i", .s input, .s "-t", .q qe])) ∧
    (tssCore "0:30" = .ok 30 ∧ tssCore "1:15" = .ok 75 ∧
      buildCmd "video.mp4" (some "0:30") (some "1:15") =
        .ok (some [.s "ffmpeg", .s "-i", .s "video.mp4", .s "-ss", .q 30,
          .s "-t", .q 45])) := by
  have hboth : ∀ (input st en : String) (qs qe : ℚ), tssCore st = .ok qs →
      tssCore en = .ok qe → buildCmd input (some st) (some en) =
        (if qe - qs ≤ 0 then .ok none
         else .ok (some ([.s "ffmpeg", .s "-i", .s input] ++
           [.s "-ss", .q qs] ++ [.s "-t", .q (qe - qs)]))) := by
    intro input st en qs qe h1 h2
    show (match tssCore st with
      | Except.error e => (Except.error e : Except PyErr (Option (List Tok)))
      | Except.ok qs0 =>
        match tssCore en with
        | Except.error e => Except.error e
        | Except.ok qe0 =>
          if qe0 - qs0 ≤ 0 then Except.ok none
          else Except.ok (some ([Tok.s "ffmpeg", Tok.s "-i", Tok.s input] ++
            [Tok.s "-ss", Tok.q qs0] ++ [Tok.s "-t", Tok.q (qe0 - qs0)]))) = _
    rw [h1, h2]
  have h30 : tssCore "0:30" = .ok 30 :=
    tss_two_core "0".data "30".data 0 30 30 (by decide) (by decide) (by norm_num)
  have h75 : tssCore "1:15" = .ok 75 :=
    tss_two_core "1".data "15".data 1 15 75 (by decide) (by decide) (by norm_num)
  refine ⟨?_, ?_, ?_, ?_, h30, h75, ?_⟩
  · intro input st qs h1
    show (match tssCore st with
      | Except.error e => (Except.error e : Except PyErr (Option (List Tok)))
      | Except.ok qs0 => Except.ok (some ([Tok.s "ffmpeg", Tok.s "-i", Tok.s input] ++
        [Tok.s "-ss", Tok.q qs0]))) = _
    rw [h1]
    rfl
  · intro input st en qs qe h1 h2 h3
    rw [hboth input st en qs qe h1 h2, if_neg (not_le.mpr h3)]
    rfl
  · intro input st en qs qe h1 h2 h3
    have hnone : buildCmd input (some st) (some en) = .ok none := by
      rw [hboth input st en qs qe h1 h2, if_pos h3]
    refine ⟨hnone, ?_⟩
    intro env output width fps
    unfold video_to_gif
    split
    · simp
    · split
      next => simp
      next => simp
      next cmd heq =>
        rw [hnone] at heq
        exact absurd heq (by simp)
  · intro input en qe h1
    show (match tssCore en with
      | Except.error e => (Except.error e : Except PyErr (Option (List Tok)))
      | Except.ok qe0 => Except.ok (some ([Tok.s "ffmpeg", Tok.s "-i", Tok.s input] ++
        [Tok.s "-t", Tok.q qe0]))) = _
    rw [h1]
    rfl
  · rw [hboth "video.mp4" "0:30" "1:15" 30 75 h30 h75,
      if_neg (by norm_num : ¬((75 : ℚ) - 30 ≤ 0)),
      show ((75 : ℚ) - 30) = 45 from by norm_num]
    rfl

theorem time_window_derivation_witness :
    tssCore "0:30" = .ok 30 ∧ tssCore "1:15" = .ok 75 ∧ (0 : ℚ) < 75 - 30 ∧
    buildCmd "clip.mp4" (some "0:30") (some "1:15") =
      .ok (some [.s "ffmpeg", .s "-i", .s "clip.mp4", .s "-ss", .q 30,
        .s "-t", .q (75 - 30)]) :=
  ⟨tss_two_core "0".data "30".data 0 30 30 (by decide) (by decide) (by norm_num),
   tss_two_core "1".data "15".data 1 15 75 (by decide) (by decide) (by norm_num),
   by norm_num,
   time_window_derivation.2.1 "clip.mp4" "0:30" "1:15" 30 75
     (tss_two_core "0".data "30".data 0 30 30 (by decide) (by decide) (by norm_num))
     (tss_two_core "1".data "15".data 1 15 75 (by decide) (by decide) (by norm_num))
     (by norm_num)⟩

/-- Claim C4 (confirmed): the palette-pass and final-pass filter
expressions share the identical base (scale with lanczos, then fps, in
that order); the palette pass appends only the palette-generation stage
and the final pass appends only the palette-application stage binding
the second input stream. -/
theorem filter_chains_share_base (w : Option Int) (f : Int) :
    ∃ base : String,
      base = joinComma (filtersFor w f) ∧
      filtersFor w f = [scaleClause w, "fps=" ++ toString f] ∧
      paletteFilters w f = base ++ ",palettegen" ∧
      gifFilters w f = base ++ "[x];[x][1:v]paletteuse" :=
  ⟨joinComma (filtersFor w f), rfl, rfl, rfl, rfl⟩

/-- Claim C9 (confirmed): whenever both encoder passes run, their
commands extend one and the same base command (same input path, same
`-ss`/`-t` trim arguments), so both passes process the same time window
of the source. -/
theorem passes_share_base_command (env : SysEnv) (input : String)
    (output : Option String) (width : Option Int) (start endT : Option String)
    (fps : Int) (p g : List Tok)
    (hp : (video_to_gif env input output width start endT fps).paletteCmdRun = some p)
    (hg : (video_to_gif env input output width start endT fps).gifCmdRun = some g) :
    ∃ base : List Tok,
      buildCmd input start endT = .ok (some base) ∧
      p = base ++ [.s "-vf", .s (paletteFilters width fps), .s "-y", .s "palette.png"] ∧
      g = base ++ [.s "-i", .s "palette.png", .s "-lavfi", .s (gifFilters width fps),
        .s "-y", .s (outputFileFor input output)] := by
  revert hp hg
  unfold video_to_gif
  split
  · intro hp _
    exact absurd hp (by simp)
  · split
    next => intro hp _; exact absurd hp (by simp)
    next => intro hp _; exact absurd hp (by simp)
    next cmd heq =>
      split
      · intro _ hg
        exact absurd hg (by simp)
      · split
        · intro hp hg
          refine ⟨cmd, heq, ?_, ?_⟩
          · injection hp with h1
            rw [← h1]
            rfl
          · injection hg with h1
            rw [← h1]
            rfl
        · intro hp hg
          refine ⟨cmd, heq, ?_, ?_⟩
          · injection hp with h1
            rw [← h1]
            rfl
          · injection hg with h1
            rw [← h1]
            rfl

theorem passes_share_base_command_witness :
    (video_to_gif ⟨true, true, false, true, false, true⟩ "clip.mp4" none (some 480)
        (some "5") none 10).paletteCmdRun =
      some (paletteCmdOf [.s "ffmpeg", .s "-i", .s "clip.mp4", .s "-ss", .q 5]
        (some 480) 10) ∧
    (video_to_gif ⟨true, true, false, true, false, true⟩ "clip.mp4" none (some 480)
        (some "5") none 10).gifCmdRun =
      some (gifCmdOf [.s "ffmpeg", .s "-i", .s "clip.mp4", .s "-ss", .q 5]
        (some 480) 10 "clip.gif") ∧
    (∃ base : List Tok,
      buildCmd "clip.mp4" (some "5") none = .ok (some base) ∧
      paletteCmdOf [.s "ffmpeg", .s "-i", .s "clip.mp4", .s "-ss", .q 5] (some 480) 10 =
        base ++ [.s "-vf", .s (paletteFilters (some 480) 10), .s "-y",
          .s "palette.png"] ∧
      gifCmdOf [.s "ffmpeg", .s "-i", .s "clip.mp4", .s "-ss", .q 5] (some 480) 10
          "clip.gif" =
        base ++ [.s "-i", .s "palette.png", .s "-lavfi", .s (gifFilters (some 480) 10),
          .s "-y", .s (outputFileFor "clip.mp4" none)]) :=
  ⟨by decide, by decide,
   passes_share_base_command ⟨true, true, false, true, false, true⟩ "clip.mp4" none
     (some 480) (some "5") none 10
     (paletteCmdOf [.s "ffmpeg", .s "-i", .s "clip.mp4", .s "-ss", .q 5] (some 480) 10)
     (gifCmdOf [.s "ffmpeg", .s "-i", .s "clip.mp4", .s "-ss", .q 5] (some 480) 10
       "clip.gif")
     (by decide) (by decide)⟩

/-- Claim C7 counterexample: the width token `"-5"` is neither rejected
nor resolved to a positive width — the integer fallback accepts it and
resolution returns -5. -/
theorem width_accepts_negative_cex :
    resolveWidth (some "-5") = .ok (-5) ∧ ¬ (0 < (-5 : Int)) :=
  ⟨by decide, by decide⟩

/-- Claim C7 (corrected): width resolution tries a case-insensitive
preset match first, then an integer parse, and otherwise fails with the
invalid-width error; no token defaults to the medium preset (480).  All
preset widths are positive, but the integer fallback accepts any
integer token, including zero and negative values, so the resolved
width is an integer that need not be positive. -/
theorem width_resolution_amended :
    resolveWidth none = .ok 480 ∧
    (∀ (t : String) (w : Int), t.data ≠ [] →
      List.lookup (pyLower t.data) RECOMMENDED_WIDTHS = some w →
      resolveWidth (some t) = .ok w) ∧
    (∀ (t : String) (n : Int), t.data ≠ [] →
      List.lookup (pyLower t.data) RECOMMENDED_WIDTHS = none →
      pyInt t.data = some n → resolveWidth (some t) = .ok n) ∧
    (∀ t : String, t.data ≠ [] →
      List.lookup (pyLower t.data) RECOMMENDED_WIDTHS = none →
      pyInt t.data = none → resolveWidth (some t) = .error .invalidWidth) ∧
    (∀ (p : List Char) (w : Int), (p, w) ∈ RECOMMENDED_WIDTHS → 0 < w) := by
  have hbody : ∀ t : String, resolveWidth (some t) =
      (if t.data = [] then
        Except.ok ((List.lookup ("medium".data) RECOMMENDED_WIDTHS).getD 0)
      else
        match List.lookup (pyLower t.data) RECOMMENDED_WIDTHS with
        | some w => Except.ok w
        | none =>
          match pyInt t.data with
          | some n => Except.ok n
          | none => Except.error WidthError.invalidWidth) := fun t => rfl
  refine ⟨by decide, fun t w hne hl => ?_, fun t n hne hl hi => ?_,
    fun t hne hl hi => ?_, ?_⟩
  · rw [hbody t, if_neg hne, hl]
  · rw [hbody t, if_neg hne, hl, hi]
  · rw [hbody t, if_neg hne, hl, hi]
  · intro p w h
    fin_cases h <;> norm_num

theorem width_resolution_amended_witness :
    "Medium".data ≠ [] ∧
    List.lookup (pyLower "Medium".data) RECOMMENDED_WIDTHS = some 480 ∧
    resolveWidth (some "Medium") = .ok 480 ∧
    "-5".data ≠ [] ∧
    List.lookup (pyLower "-5".data) RECOMMENDED_WIDTHS = none ∧
    pyInt "-5".data = some (-5) ∧
    resolveWidth (some "-5") = .ok (-5) :=
  ⟨by decide, by decide,
   width_resolution_amended.2.1 "Medium" 480 (by decide) (by decide),
   by decide, by decide, by decide,
   width_resolution_amended.2.2.1 "-5" (-5) (by decide) (by decide) (by decide)⟩

/-- Claim C1 counterexample: a run whose palette pass fails while
leaving `palette.png` on disk (the pass reached palette generation)
returns with the palette artifact still present — the cleanup code does
not run on the palette-failure path. -/
theorem palette_survives_failed_palette_pass :
    Ev.procPalette ∈ (video_to_gif ⟨true, true, false, false, true, true⟩
      "video.mp4" none (some 480) none none 10).events ∧
    (video_to_gif ⟨true, true, false, false, true, true⟩
      "video.mp4" none (some 480) none none 10).paletteAfter = true :=
  ⟨by decide, by decide⟩

/-- Claim C1 (corrected): the palette artifact is removed on every path
out of the final encoding pass — whenever the final pass runs, the
palette file does not survive, whether encoding succeeds or fails.  On a
palette-generation failure, however, `video_to_gif` returns without any
cleanup, so the artifact can survive that path. -/
theorem palette_removed_on_paths_out_of_encoding (env : SysEnv) (input : String)
    (output : Option String) (width : Option Int) (start endT : Option String)
    (fps : Int)
    (h : Ev.procGif ∈ (video_to_gif env input output width start endT fps).events) :
    (video_to_gif env input output width start endT fps).paletteAfter = false := by
  revert h
  unfold video_to_gif
  split
  · intro h
    simp at h
  · split
    next =>
      intro h
      simp at h
    next =>
      intro h
      simp at h
    next =>
      split
      · intro h
        simp at h
      · split
        · intro _
          rfl
        · intro _
          rfl

theorem palette_removed_on_paths_out_of_encoding_witness :
    Ev.procGif ∈ (video_to_gif ⟨true, true, false, true, false, false⟩
      "v.mp4" none (some 480) none none 10).events ∧
    (video_to_gif ⟨true, true, false, true, false, false⟩
      "v.mp4" none (some 480) none none 10).paletteAfter = false :=
  ⟨by decide,
   palette_removed_on_paths_out_of_encoding ⟨true, true, false, true, false, false⟩
     "v.mp4" none (some 480) none none 10 (by decide)⟩

/-- Claim C2 counterexample: on an ordinary successful run the very
first trace event is the ffmpeg availability check — an external process
invocation — and validation events follow it, so validation does not
complete before every external process invocation. -/
theorem process_precedes_validation_cex :
    eventsPrecede isValidationEvent isProcessEvent
      (mainRun ⟨true, true, false, true, false, true⟩
        ⟨"v.mp4", none, none, none, none, 10, false⟩).1 = false ∧
    (mainRun ⟨true, true, false, true, false, true⟩
        ⟨"v.mp4", none, none, none, none, 10, false⟩).1 =
      [.procCheckFFmpeg, .validateWidth, .validateTimestamps, .checkInputExists,
       .procPalette, .procGif] :=
  ⟨by decide, by decide⟩

/-- Claim C2 (corrected): in every run, all validation steps (width
resolution, timestamp resolution, input-file existence) precede both
encoder passes; the encoder-availability check, however, is an external
process invocation that always runs before validation. -/
theorem validation_precedes_encoder_passes (env : SysEnv) (a : CliArgs) :
    eventsPrecede isValidationEvent isEncoderPassEvent (mainRun env a).1 = true := by
  unfold mainRun
  split
  · rfl
  · split
    · rfl
    · split
      · rfl
      next w hw =>
        split
        · rfl
        next u hv =>
          rcases video_to_gif_events_cases env a.input a.output (some w) a.start
              a.endT a.fps with h | h | h <;>
            simp only [h] <;> rfl
